import Mathlib

set_option linter.unusedVariables false

/-!
Shallow embedding of `cs330_baseline_cifar.py`, a CIFAR-10 / Fashion-MNIST
image-classification training harness written on top of PyTorch.

Tensor entries are modelled as rationals (exact arithmetic standing in for
floating point), a batch is a list of (input, label) pairs, and the opaque
framework operations that this repository merely orchestrates (forward
passes, backpropagation, the SGD update rule) appear as explicit function
parameters.  Every definition is translated from the Python source; the few
pieces whose code lives outside the embedded file (the `resnet18`
constructor from `resnet.py`) are modelled from the specification and say
so in their doc comment.
-/

namespace CifarBaseline

/-- A compute device tag such as "cuda:0" or "cpu:0".  Moving tensors with
`.to(device)` does not change their value, so the pure semantics of the
embedded functions ignores this argument. -/
abbrev Device := String

/-- Result of `torch.max(outputs, 1)` on one output row: the index of the
first maximal element (0 for an empty row). -/
def argmaxIdx (xs : List ℚ) : ℕ :=
  (List.range xs.length).foldl
    (fun best i => if xs.getD best 0 < xs.getD i 0 then i else best) 0

/-- One batch yielded by a data loader: a list of (input, label) pairs. -/
abbrev Batch (I : Type) := List (I × ℕ)

/-- A data loader as consumed by `evaluate_model`: the underlying dataset
(`len(test_loader.dataset)` reads its length) together with the batches the
loader yields when iterated. -/
structure Loader (I : Type) where
  dataset : List (I × ℕ)
  batches : List (Batch I)

/-- A loss function as passed for `criterion`: applied to the list of model
output rows and the list of labels of one batch, it returns one scalar
(`criterion(outputs, labels).item()`). -/
abbrev Criterion := List (List ℚ) → List ℕ → ℚ

/-- The body of `evaluate_model`'s batch loop (source lines 114-129): compute
outputs and arg-max predictions, take the batch loss (0 when no criterion is
given), and accumulate `loss * inputs.size(0)` into the running loss and the
count of `preds == labels` into the running corrects.  The model runs in
eval mode (`model.eval()` precedes the loop), so its outputs are per-row. -/
def runningStep {I : Type} (model : I → List ℚ) (criterion : Option Criterion)
    (acc : ℚ × ℤ) (batch : Batch I) : ℚ × ℤ :=
  let outputs := batch.map (fun s => model s.1)
  let labels := batch.map (fun s => s.2)
  let preds := outputs.map argmaxIdx
  let loss : ℚ :=
    match criterion with
    | some c => c outputs labels
    | none => 0
  (acc.1 + loss * (batch.length : ℚ),
   acc.2 + (((preds.zip labels).filter (fun q => q.1 = q.2)).length : ℤ))

/-- Embedding of `evaluate_model` (source lines 106-134): fold the running
statistics over all batches and divide both sums by
`len(test_loader.dataset)`. -/
def evaluate_model {I : Type} (model : I → List ℚ) (test_loader : Loader I)
    (device : Device) (criterion : Option Criterion := none) : ℚ × ℚ :=
  let r := test_loader.batches.foldl (runningStep model criterion) (0, 0)
  (r.1 / (test_loader.dataset.length : ℚ),
   (r.2 : ℚ) / (test_loader.dataset.length : ℚ))

/-- A batch criterion that averages a per-sample loss `l` over the batch, the
shape of `nn.CrossEntropyLoss()` with its default mean reduction. -/
def meanCriterion (l : List ℚ → ℕ → ℚ) : Criterion := fun outputs labels =>
  ((outputs.zip labels).map (fun q => l q.1 q.2)).sum / (outputs.length : ℚ)

/-- A batch criterion that sums a per-sample loss `l` over the batch (the
`reduction='sum'` convention). -/
def sumCriterion (l : List ℚ → ℕ → ℚ) : Criterion := fun outputs labels =>
  ((outputs.zip labels).map (fun q => l q.1 q.2)).sum

/-- The contribution `loss * inputs.size(0)` of one batch to the running
loss. -/
def batchLossTerm {I : Type} (model : I → List ℚ) (criterion : Option Criterion)
    (batch : Batch I) : ℚ :=
  (match criterion with
   | some c => c (batch.map (fun s => model s.1)) (batch.map (fun s => s.2))
   | none => 0) * (batch.length : ℚ)

/-- The contribution of one batch to the running corrects. -/
def batchCorrect {I : Type} (model : I → List ℚ) (batch : Batch I) : ℕ :=
  (((batch.map (fun s => model s.1)).map argmaxIdx).zip
      (batch.map (fun s => s.2)) |>.filter (fun q => q.1 = q.2)).length

/-- Sum of a fixed per-sample loss over a list of samples. -/
def perSampleLossSum {I : Type} (model : I → List ℚ) (l : List ℚ → ℕ → ℚ)
    (samples : List (I × ℕ)) : ℚ :=
  (samples.map (fun s => l (model s.1) s.2)).sum

/-- Number of samples whose arg-max prediction equals the label. -/
def correctCount {I : Type} (model : I → List ℚ) (samples : List (I × ℕ)) : ℕ :=
  (samples.filter (fun s => argmaxIdx (model s.1) = s.2)).length

theorem runningStep_eq {I : Type} (model : I → List ℚ)
    (criterion : Option Criterion) (acc : ℚ × ℤ) (batch : Batch I) :
    runningStep model criterion acc batch =
      (acc.1 + batchLossTerm model criterion batch,
       acc.2 + (batchCorrect model batch : ℤ)) := by
  cases criterion <;> rfl

theorem foldl_runningStep {I : Type} (model : I → List ℚ)
    (criterion : Option Criterion) (bs : List (Batch I)) (a : ℚ) (c : ℤ) :
    bs.foldl (runningStep model criterion) (a, c) =
      (a + (bs.map (batchLossTerm model criterion)).sum,
       c + ((bs.map (fun b => (batchCorrect model b : ℤ))).sum)) := by
  induction bs generalizing a c with
  | nil => simp
  | cons b bs ih =>
      simp only [List.foldl_cons, runningStep_eq, List.map_cons, List.sum_cons]
      rw [ih]
      simp [add_assoc]

theorem batchCorrect_eq_correctCount {I : Type} (model : I → List ℚ)
    (batch : Batch I) : batchCorrect model batch = correctCount model batch := by
  induction batch with
  | nil => rfl
  | cons s b ih =>
      simp only [batchCorrect, correctCount, List.map_cons, List.map_map,
        List.zip_cons_cons, List.filter_cons] at ih ⊢
      by_cases h : argmaxIdx (model s.1) = s.2
      · simp [h, ih]
      · simp [h, ih]

theorem correctCount_append {I : Type} (model : I → List ℚ)
    (xs ys : List (I × ℕ)) :
    correctCount model (xs ++ ys) = correctCount model xs + correctCount model ys := by
  simp [correctCount, List.filter_append]

theorem perSampleLossSum_append {I : Type} (model : I → List ℚ)
    (l : List ℚ → ℕ → ℚ) (xs ys : List (I × ℕ)) :
    perSampleLossSum model l (xs ++ ys) =
      perSampleLossSum model l xs + perSampleLossSum model l ys := by
  simp [perSampleLossSum]

theorem batchLossTerm_some {I : Type} (model : I → List ℚ) (c : Criterion)
    (batch : Batch I) :
    batchLossTerm model (some c) batch =
      c (batch.map (fun s => model s.1)) (batch.map (fun s => s.2)) *
        (batch.length : ℚ) := rfl

/-- With a batch-mean criterion, `loss * batch_size` recovers the exact sum of
per-sample losses over the batch (also for an empty batch, where both sides
are zero). -/
theorem batchLossTerm_meanCriterion {I : Type} (model : I → List ℚ)
    (l : List ℚ → ℕ → ℚ) (batch : Batch I) :
    batchLossTerm model (some (meanCriterion l)) batch =
      perSampleLossSum model l batch := by
  have hzip : ((batch.map (fun s => model s.1)).zip
      (batch.map (fun s => s.2))).map (fun q => l q.1 q.2) =
      batch.map (fun s => l (model s.1) s.2) := by
    induction batch with
    | nil => rfl
    | cons s b ih => simp [ih]
  rw [batchLossTerm_some, meanCriterion, hzip, perSampleLossSum]
  rcases batch with _ | ⟨s, b⟩
  · simp
  · rw [List.length_map, div_mul_cancel₀]
    exact Nat.cast_ne_zero.mpr (by simp)

theorem evaluate_model_closed_form {I : Type} (model : I → List ℚ)
    (loader : Loader I) (device : Device) (criterion : Option Criterion) :
    evaluate_model model loader device criterion =
      ((loader.batches.map (batchLossTerm model criterion)).sum /
          (loader.dataset.length : ℚ),
       ((loader.batches.map (fun b => (batchCorrect model b : ℤ))).sum : ℚ) /
          (loader.dataset.length : ℚ)) := by
  unfold evaluate_model
  rw [foldl_runningStep]
  simp

theorem sum_batchLossTerm_meanCriterion {I : Type} (model : I → List ℚ)
    (l : List ℚ → ℕ → ℚ) (bs : List (Batch I)) :
    (bs.map (batchLossTerm model (some (meanCriterion l)))).sum =
      perSampleLossSum model l bs.flatten := by
  induction bs with
  | nil => simp [perSampleLossSum]
  | cons b bs ih =>
      simp [batchLossTerm_meanCriterion, perSampleLossSum_append, ih]

theorem sum_batchCorrect {I : Type} (model : I → List ℚ) (bs : List (Batch I)) :
    (bs.map (fun b => (batchCorrect model b : ℤ))).sum =
      (correctCount model bs.flatten : ℤ) := by
  induction bs with
  | nil => simp [correctCount]
  | cons b bs ih =>
      simp only [batchCorrect_eq_correctCount] at ih ⊢
      simp only [List.map_cons, List.sum_cons, ih, List.flatten_cons,
        correctCount_append]
      push_cast
      ring

/-- A concrete one-logit model used to instantiate the evaluation theorems. -/
def mOne : ℕ → List ℚ := fun x => [(x : ℚ)]

/-- A concrete per-sample loss that charges 1 per sample. -/
def lOne : List ℚ → ℕ → ℚ := fun _ _ => 1

/-- A two-sample dataset served as a single batch of size 2. -/
def loaderA : Loader ℕ := ⟨[(1, 0), (2, 0)], [[(1, 0), (2, 0)]]⟩

/-- The same two-sample dataset served as two batches of size 1. -/
def loaderB : Loader ℕ := ⟨[(1, 0), (2, 0)], [[(1, 0)], [(2, 0)]]⟩

/-- C1 (counterexample): as stated — quantifying over every loss function —
the claim is false: with a sum-reducing criterion (`reduction='sum'`), the
same two-sample dataset evaluated as one batch of 2 versus two batches of 1
yields different metrics (loss 2 versus loss 1), because `evaluate_model`
multiplies the batch loss by the batch size again. -/
theorem evaluate_model_not_partition_invariant :
    loaderA.dataset = loaderB.dataset ∧
    loaderA.batches.flatten = loaderA.dataset ∧
    loaderB.batches.flatten = loaderB.dataset ∧
    evaluate_model mOne loaderA "cpu:0" (some (sumCriterion lOne)) ≠
      evaluate_model mOne loaderB "cpu:0" (some (sumCriterion lOne)) := by
  refine ⟨rfl, rfl, rfl, fun he => ?_⟩
  have h1 : (evaluate_model mOne loaderA "cpu:0" (some (sumCriterion lOne))).1 =
      (evaluate_model mOne loaderB "cpu:0" (some (sumCriterion lOne))).1 :=
    congrArg Prod.fst he
  rw [evaluate_model_closed_form, evaluate_model_closed_form] at h1
  simp only [loaderA, loaderB, batchLossTerm, sumCriterion, lOne, mOne,
    List.map_cons, List.map_nil, List.zip_cons_cons, List.zip_nil_right,
    List.sum_cons, List.sum_nil, List.length_cons, List.length_nil] at h1
  norm_num at h1

/-- C1 (amended): whenever the criterion is the batch mean of a per-sample
loss — the shape of `nn.CrossEntropyLoss()`'s default reduction — the
loss/accuracy pair returned by `evaluate_model` (per-batch loss weighted by
actual batch size, both sums divided by the dataset length) is invariant
under the choice of batch partition of the dataset; and the accuracy
component is partition-invariant for every criterion. -/
theorem evaluate_model_partition_invariant {I : Type} (model : I → List ℚ)
    (l : List ℚ → ℕ → ℚ) (criterion : Option Criterion)
    (L1 L2 : Loader I) (d1 d2 : Device)
    (hds : L1.dataset = L2.dataset)
    (h1 : L1.batches.flatten = L1.dataset)
    (h2 : L2.batches.flatten = L2.dataset) :
    evaluate_model model L1 d1 (some (meanCriterion l)) =
      evaluate_model model L2 d2 (some (meanCriterion l)) ∧
    (evaluate_model model L1 d1 criterion).2 =
      (evaluate_model model L2 d2 criterion).2 := by
  refine ⟨?_, ?_⟩ <;>
    simp only [evaluate_model_closed_form, sum_batchLossTerm_meanCriterion,
      sum_batchCorrect, h1, h2, hds]

theorem evaluate_model_partition_invariant_witness :
    (loaderA.dataset = loaderB.dataset ∧
     loaderA.batches.flatten = loaderA.dataset ∧
     loaderB.batches.flatten = loaderB.dataset) ∧
    (evaluate_model mOne loaderA "cpu:0" (some (meanCriterion lOne)) =
       evaluate_model mOne loaderB "cpu:0" (some (meanCriterion lOne)) ∧
     (evaluate_model mOne loaderA "cpu:0" (some (sumCriterion lOne))).2 =
       (evaluate_model mOne loaderB "cpu:0" (some (sumCriterion lOne))).2) :=
  ⟨⟨rfl, rfl, rfl⟩,
   evaluate_model_partition_invariant mOne lOne (some (sumCriterion lOne))
     loaderA loaderB "cpu:0" "cpu:0" rfl rfl rfl⟩

/-- C8 (confirmed): with `criterion=None` the per-batch loss is the literal 0,
so the returned loss is exactly zero, while the returned accuracy is the
same as with any criterion supplied. -/
theorem evaluate_model_none_criterion {I : Type} (model : I → List ℚ)
    (loader : Loader I) (device : Device) (c : Criterion) :
    (evaluate_model model loader device none).1 = 0 ∧
    (evaluate_model model loader device none).2 =
      (evaluate_model model loader device (some c)).2 := by
  constructor
  · rw [evaluate_model_closed_form]
    have h0 : ∀ bs : List (Batch I), (bs.map (batchLossTerm model none)).sum = 0 := by
      intro bs
      induction bs with
      | nil => simp
      | cons b bs ih => simp [ih, batchLossTerm]
    simp [h0]
  · rw [evaluate_model_closed_form, evaluate_model_closed_form]

/-- Module-level dataset identifier constant (source line 20). -/
def CIFAR10 : String := "cifar10"

/-- Module-level dataset identifier constant (source line 21).  Note the
source spells the string `fashion_nist`, not `fashion_mnist`. -/
def FASHION_MNIST : String := "fashion_nist"

/-- Exceptions the embedded functions can raise.  Writing
`raise NotImplemented()` (source line 88) calls the non-callable
`NotImplemented` singleton and therefore raises a `TypeError`;
a failed `assert` raises an `AssertionError`. -/
inductive PyExc
  | typeError
  | assertionError
deriving DecidableEq

/-- Configuration of one `torch.utils.data.DataLoader` produced by
`prepare_dataloader`: which dataset it serves, its batch size, whether its
sampler shuffles (`RandomSampler` versus `SequentialSampler`), and its
worker count. -/
structure DataLoaderCfg where
  dataset_id : String
  batch_size : ℕ
  shuffled : Bool
  num_workers : ℕ
deriving DecidableEq

/-- Embedding of `prepare_dataloader` (source lines 33-103): the `if/elif`
chain on the dataset identifier builds CIFAR-10 or Fashion-MNIST loaders
(training loader randomly sampled, test loader sequential), and the `else`
branch raises (source lines 87-88). -/
def prepare_dataloader (num_workers train_batch_size eval_batch_size : ℕ)
    (dataset : String) : Except PyExc (DataLoaderCfg × DataLoaderCfg) :=
  if dataset = CIFAR10 then
    .ok ({ dataset_id := dataset, batch_size := train_batch_size,
           shuffled := true, num_workers := num_workers },
         { dataset_id := dataset, batch_size := eval_batch_size,
           shuffled := false, num_workers := num_workers })
  else if dataset = FASHION_MNIST then
    .ok ({ dataset_id := dataset, batch_size := train_batch_size,
           shuffled := true, num_workers := num_workers },
         { dataset_id := dataset, batch_size := eval_batch_size,
           shuffled := false, num_workers := num_workers })
  else
    .error .typeError

/-- C6 (confirmed): for every dataset identifier other than the two
recognized constants, `prepare_dataloader` raises instead of returning
loaders (the `raise NotImplemented()` branch; at runtime this surfaces as a
`TypeError` because `NotImplemented` is not callable, but it is a raise
either way, never a silent default). -/
theorem prepare_dataloader_raises_on_unknown
    (num_workers train_batch_size eval_batch_size : ℕ) (dataset : String)
    (h1 : dataset ≠ CIFAR10) (h2 : dataset ≠ FASHION_MNIST) :
    prepare_dataloader num_workers train_batch_size eval_batch_size dataset =
      .error .typeError := by
  simp [prepare_dataloader, h1, h2]

theorem prepare_dataloader_raises_on_unknown_witness :
    ("imagenet" ≠ CIFAR10 ∧ "imagenet" ≠ FASHION_MNIST) ∧
    prepare_dataloader 8 128 256 "imagenet" = .error .typeError :=
  ⟨⟨by decide, by decide⟩,
   prepare_dataloader_raises_on_unknown 8 128 256 "imagenet"
     (by decide) (by decide)⟩

/-- C10 (confirmed): the accepted dataset identifiers are exactly "cifar10"
and "fashion_nist" (the misspelled Fashion-MNIST constant), so the natural
spelling "fashion_mnist" falls into the raising branch. -/
theorem prepare_dataloader_accepts_exactly
    (num_workers train_batch_size eval_batch_size : ℕ) (dataset : String) :
    ((∃ v, prepare_dataloader num_workers train_batch_size eval_batch_size
        dataset = .ok v) ↔ dataset = "cifar10" ∨ dataset = "fashion_nist") ∧
    FASHION_MNIST = "fashion_nist" ∧
    prepare_dataloader num_workers train_batch_size eval_batch_size
      "fashion_mnist" = .error .typeError := by
  refine ⟨?_, rfl, by simp [prepare_dataloader, CIFAR10, FASHION_MNIST]⟩
  by_cases h1 : dataset = "cifar10"
  · subst h1
    simp [prepare_dataloader, CIFAR10]
  · by_cases h2 : dataset = "fashion_nist"
    · subst h2
      simp [prepare_dataloader, CIFAR10, FASHION_MNIST]
    · simp [prepare_dataloader, CIFAR10, FASHION_MNIST, h1, h2]

/-- An untrained network as produced by the two architecture constructors:
its architecture tag, its output-class count, its input channel count, and
whether pretrained weights were requested. -/
structure NNModel where
  arch_tag : String
  num_classes : ℕ
  input_ch : ℕ
  pretrained : Bool
deriving DecidableEq

/-- Modelled from the spec: the `resnet18` constructor is imported from
`resnet.py`, which is not part of the embedded source file; spec section 4.1
says the model factory "constructs an untrained classifier given an
architecture tag, number of output classes, and input channel count" whose
output is "an untrained model instance with the requested output
dimensionality", and the first variant takes 3 input channels. -/
def resnet18 (num_classes : ℕ) (pretrained : Bool) : NNModel :=
  { arch_tag := "resnet18", num_classes := num_classes, input_ch := 3,
    pretrained := pretrained }

/-- Modelled from the spec: the `VovNet` constructor is imported from
`vovnet.py`, which is not part of the embedded source file; per spec
section 4.1 it constructs an untrained classifier with the requested output
classes and input channels. -/
def vovNetModel (num_classes input_ch : ℕ) (conv_body norm : String) : NNModel :=
  { arch_tag := "vovnet", num_classes := num_classes, input_ch := input_ch,
    pretrained := false }

/-- Embedding of `create_model` (source lines 292-311): for `arch='resnet'`
assert `input_ch == 3` and build a ResNet-18; any other tag builds a
VovNet. -/
def create_model (num_classes : ℕ) (arch : String) (input_ch : ℕ) :
    Except PyExc NNModel :=
  if arch = "resnet" then
    if input_ch = 3 then .ok (resnet18 num_classes false)
    else .error .assertionError
  else .ok (vovNetModel num_classes input_ch "V-19-slim-eSE" "BN")

/-- C9 (confirmed): with `arch='resnet'`, `create_model` fails its assertion
for every input channel count other than 3, and for `input_ch = 3` returns
the untrained (pretrained=False) model with the requested number of output
classes. -/
theorem create_model_resnet_asserts_input_ch (num_classes input_ch : ℕ)
    (h : input_ch ≠ 3) :
    create_model num_classes "resnet" input_ch = .error .assertionError ∧
    create_model num_classes "resnet" 3 = .ok (resnet18 num_classes false) ∧
    (resnet18 num_classes false).num_classes = num_classes ∧
    (resnet18 num_classes false).pretrained = false := by
  refine ⟨?_, rfl, rfl, rfl⟩
  simp [create_model, h]

theorem create_model_resnet_asserts_input_ch_witness :
    (1 ≠ 3) ∧
    (create_model 10 "resnet" 1 = .error .assertionError ∧
     create_model 10 "resnet" 3 = .ok (resnet18 10 false) ∧
     (resnet18 10 false).num_classes = 10 ∧
     (resnet18 10 false).pretrained = false) :=
  ⟨by decide, create_model_resnet_asserts_input_ch 10 1 (by decide)⟩

/-- Elementwise closeness check of `np.allclose(a=y1, b=y2, rtol, atol,
equal_nan=False)` on same-shape arrays flattened to lists:
`|a - b| <= atol + rtol * |b|` must hold at every position.  (NaN never
arises over exact rationals; numpy raises on non-broadcastable shapes, and
the probe only ever compares outputs of the same shape.) -/
def allclose (rtol atol : ℚ) (a b : List ℚ) : Bool :=
  decide (a.length = b.length) &&
    (a.zip b).all (fun q => decide (|q.1 - q.2| ≤ atol + rtol * |q.2|))

/-- The `for _ in range(num_tests)` loop of `model_equivalence` (source lines
349-360): at sample index `i` with `n` tests remaining, compare both models
on the same fresh random input; on the first failure return `False` together
with the pair of output arrays that the source prints, otherwise continue
and finally return `True` (printing nothing). -/
def equivLoop {X : Type} (model_1 model_2 : X → List ℚ) (rtol atol : ℚ)
    (xs : ℕ → X) : ℕ → ℕ → Bool × Option (List ℚ × List ℚ)
  | _, 0 => (true, none)
  | i, n + 1 =>
    let y1 := model_1 (xs i)
    let y2 := model_2 (xs i)
    if allclose rtol atol y1 y2 then
      equivLoop model_1 model_2 rtol atol xs (i + 1) n
    else (false, some (y1, y2))

/-- Embedding of `model_equivalence` (source lines 338-360).  The stream `xs`
supplies the successive `torch.rand(size=input_size)` draws; the second
component of the result is the pair of printed output arrays (`None` when
nothing is printed). -/
def model_equivalence {X : Type} (model_1 model_2 : X → List ℚ)
    (device : Device) (rtol atol : ℚ) (num_tests : ℕ) (xs : ℕ → X) :
    Bool × Option (List ℚ × List ℚ) :=
  equivLoop model_1 model_2 rtol atol xs 0 num_tests

theorem equivLoop_true_iff {X : Type} (m1 m2 : X → List ℚ) (rtol atol : ℚ)
    (xs : ℕ → X) (n i : ℕ) :
    (equivLoop m1 m2 rtol atol xs i n).1 = true ↔
      ∀ k < n, allclose rtol atol (m1 (xs (i + k))) (m2 (xs (i + k))) = true := by
  induction n generalizing i with
  | zero => simp [equivLoop]
  | succ n ih =>
      rw [equivLoop]
      by_cases h : allclose rtol atol (m1 (xs i)) (m2 (xs i)) = true
      · rw [if_pos h, ih]
        constructor
        · intro hk k hkn
          rcases Nat.eq_zero_or_pos k with hk0 | hkpos
          · subst hk0; simpa using h
          · obtain ⟨k', rfl⟩ := Nat.exists_eq_add_of_le hkpos
            have := hk k' (by omega)
            simpa [Nat.add_assoc, Nat.add_comm 1 k'] using this
        · intro hk k hkn
          have := hk (k + 1) (by omega)
          simpa [Nat.add_assoc, Nat.add_comm 1 k] using this
      · rw [if_neg h]
        simp only [Bool.false_eq_true, false_iff]
        exact fun hk => h (by simpa using hk 0 (Nat.succ_pos n))

theorem equivLoop_first_fail {X : Type} (m1 m2 : X → List ℚ) (rtol atol : ℚ)
    (xs : ℕ → X) (n i j : ℕ) (hj : j < n)
    (hbefore : ∀ k < j, allclose rtol atol (m1 (xs (i + k))) (m2 (xs (i + k))) = true)
    (hfail : allclose rtol atol (m1 (xs (i + j))) (m2 (xs (i + j))) = false) :
    equivLoop m1 m2 rtol atol xs i n =
      (false, some (m1 (xs (i + j)), m2 (xs (i + j)))) := by
  induction n generalizing i j with
  | zero => omega
  | succ n ih =>
      rw [equivLoop]
      rcases Nat.eq_zero_or_pos j with hj0 | hjpos
      · subst hj0
        simp only [Nat.add_zero] at hfail
        rw [if_neg (by simp [hfail])]
        simp [hfail]
      · obtain ⟨j', rfl⟩ := Nat.exists_eq_add_of_le hjpos
        have h0 : allclose rtol atol (m1 (xs i)) (m2 (xs i)) = true := by
          simpa using hbefore 0 (by omega)
        rw [if_pos h0]
        have := ih (i + 1) j' (by omega)
          (fun k hk => by
            have := hbefore (k + 1) (by omega)
            simpa [Nat.add_assoc, Nat.add_comm 1 k] using this)
          (by simpa [Nat.add_assoc, Nat.add_comm 1 j'] using hfail)
        simpa [Nat.add_assoc, Nat.add_comm 1 j'] using this

/-- C4 (confirmed): `model_equivalence` is an all-or-nothing boolean — it
returns `True` exactly when all `num_tests` sampled inputs produce
elementwise-close outputs, and on the first sample whose outputs are not
close it stops, prints both output arrays, and returns `False`. -/
theorem model_equivalence_all_or_nothing {X : Type} (m1 m2 : X → List ℚ)
    (device : Device) (rtol atol : ℚ) (num_tests : ℕ) (xs : ℕ → X) :
    ((model_equivalence m1 m2 device rtol atol num_tests xs).1 = true ↔
      ∀ i < num_tests, allclose rtol atol (m1 (xs i)) (m2 (xs i)) = true) ∧
    (∀ j < num_tests,
      (∀ i < j, allclose rtol atol (m1 (xs i)) (m2 (xs i)) = true) →
      allclose rtol atol (m1 (xs j)) (m2 (xs j)) = false →
      model_equivalence m1 m2 device rtol atol num_tests xs =
        (false, some (m1 (xs j), m2 (xs j)))) := by
  constructor
  · simpa using equivLoop_true_iff m1 m2 rtol atol xs num_tests 0
  · intro j hj hbefore hfail
    have := equivLoop_first_fail m1 m2 rtol atol xs num_tests 0 j hj
      (by simpa using hbefore) (by simpa using hfail)
    simpa using this

/-- A concrete pair of one-logit models, differing from sample index 1 on. -/
def mProbe1 : ℕ → List ℚ := fun i => [(i : ℚ)]

/-- Second concrete model for the equivalence probe. -/
def mProbe2 : ℕ → List ℚ := fun i => if i = 0 then [0] else [2]

/-- The identity stream of synthetic inputs. -/
def xsNat : ℕ → ℕ := fun i => i

theorem model_equivalence_all_or_nothing_witness :
    ((model_equivalence mProbe1 mProbe2 "cpu:0" 0 (1/2) 3 xsNat).1 = true ↔
      ∀ i < 3, allclose 0 (1/2) (mProbe1 (xsNat i)) (mProbe2 (xsNat i)) = true) ∧
    model_equivalence mProbe1 mProbe2 "cpu:0" 0 (1/2) 3 xsNat =
      (false, some (mProbe1 (xsNat 1), mProbe2 (xsNat 1))) :=
  ⟨(model_equivalence_all_or_nothing mProbe1 mProbe2 "cpu:0" 0 (1/2) 3 xsNat).1,
   (model_equivalence_all_or_nothing mProbe1 mProbe2 "cpu:0" 0 (1/2) 3 xsNat).2
     1 (by norm_num)
     (by
       intro i hi
       interval_cases i
       norm_num [allclose, mProbe1, mProbe2, xsNat])
     (by norm_num [allclose, mProbe1, mProbe2, xsNat])⟩

/-- A constant one-logit model compared against itself. -/
def mConst : ℕ → List ℚ := fun _ => [1]

/-- C5 (counterexample): the claim quantifies over every tolerance setting,
but with a negative absolute tolerance (`atol = -1`, `rtol = 0`) the numpy
closeness test `|a-b| <= atol + rtol*|b|` fails even for identical outputs
(`0 <= -1` is false), so `model_equivalence` applied to the same model twice
returns `False` on the very first of its `num_tests = 1` samples. -/
theorem model_equivalence_same_model_neg_tolerance :
    (model_equivalence mConst mConst "cpu:0" 0 (-1) 1 xsNat).1 = false := by
  have hfail : allclose 0 (-1) (mConst (xsNat 0)) (mConst (xsNat 0)) = false := by
    norm_num [allclose, mConst, xsNat]
  rw [model_equivalence, equivLoop, if_neg (by simp [hfail])]

/-- C5 (amended): whenever both tolerances are nonnegative — as numpy's
defaults `rtol=1e-05`, `atol=1e-08` are — `model_equivalence` applied to the
same model twice returns `True` (printing nothing) for every number of
samples, every input stream, and every device, because each output array is
elementwise close to itself. -/
theorem model_equivalence_same_model {X : Type} (m : X → List ℚ)
    (device : Device) (rtol atol : ℚ) (hr : 0 ≤ rtol) (ha : 0 ≤ atol)
    (num_tests : ℕ) (xs : ℕ → X) :
    model_equivalence m m device rtol atol num_tests xs = (true, none) := by
  have hall : ∀ x, allclose rtol atol (m x) (m x) = true := by
    intro x
    have hzip : ∀ y : List ℚ,
        (y.zip y).all (fun q => decide (|q.1 - q.2| ≤ atol + rtol * |q.2|)) = true := by
      intro y
      induction y with
      | nil => rfl
      | cons a y ih =>
          simp only [List.zip_cons_cons, List.all_cons, ih, Bool.and_true,
            decide_eq_true_eq, sub_self, abs_zero]
          exact add_nonneg ha (mul_nonneg hr (abs_nonneg a))
    simp [allclose, hzip]
  have hloop : ∀ (n i : ℕ), equivLoop m m rtol atol xs i n = (true, none) := by
    intro n
    induction n with
    | zero => intro i; rfl
    | succ n ih => intro i; rw [equivLoop, if_pos (hall (xs i))]; exact ih (i + 1)
  exact hloop num_tests 0

theorem model_equivalence_same_model_witness :
    ((0 : ℚ) ≤ 0 ∧ (0 : ℚ) ≤ 1) ∧
    model_equivalence mConst mConst "cpu:0" 0 1 5 xsNat = (true, none) :=
  ⟨⟨le_refl 0, by norm_num⟩,
   model_equivalence_same_model mConst "cpu:0" 0 1 (le_refl 0) (by norm_num)
     5 xsNat⟩

/-- One named parameter tensor of the model, as yielded by
`model.named_parameters()`: its dotted name, its value, and its
`requires_grad` flag (`True` on a freshly constructed or loaded model). -/
structure Param (V : Type) where
  name : String
  value : V
  requires_grad : Bool
deriving DecidableEq

/-- The fine-tuning freeze loop of `main` (source lines 411-415): every named
parameter whose name does not start with `finetune_layer_keyword` gets
`requires_grad = False`; matching parameters are left as they are (the
matching branch only prints). -/
def freezeExcept {V : Type} (keyword : String) (ps : List (Param V)) :
    List (Param V) :=
  ps.map (fun p =>
    if p.name.startsWith keyword then p else { p with requires_grad := false })

/-- Effect of one zero-grad → forward → backward → `optimizer.step()` cycle
on a single parameter, with `u` the value update the SGD rule (gradient,
momentum, weight decay) would apply.  Modelled from PyTorch's documented
behaviour of the external optimizer (spec section 6 treats the framework as
a collaborator): `loss.backward()` writes gradients only into tensors with
`requires_grad=True`, and `optim.SGD.step()` skips parameters whose `.grad`
is absent, so frozen parameters are left untouched. -/
def paramStep {V : Type} (u : String → V → V) (p : Param V) : Param V :=
  if p.requires_grad then { p with value := u p.name p.value } else p

/-- One optimizer step over the whole parameter list. -/
def sgd_step {V : Type} (u : String → V → V) (ps : List (Param V)) :
    List (Param V) :=
  ps.map (paramStep u)

/-- Composition of a sequence of per-step value updates on one parameter. -/
def applyUpdates {V : Type} (us : List (String → V → V)) (name : String)
    (v : V) : V :=
  us.foldl (fun w u => u name w) v

theorem foldl_sgd_step_map {V : Type} (us : List (String → V → V))
    (ps : List (Param V)) (f : Param V → Param V) :
    us.foldl (fun a u => sgd_step u a) (ps.map f) =
      ps.map (fun p => us.foldl (fun q u => paramStep u q) (f p)) := by
  induction us generalizing f with
  | nil => simp
  | cons u us ih =>
      simp only [List.foldl_cons, sgd_step, List.map_map]
      exact ih (paramStep u ∘ f)

theorem foldl_paramStep {V : Type} (us : List (String → V → V)) (q : Param V) :
    us.foldl (fun r u => paramStep u r) q =
      { name := q.name,
        value := if q.requires_grad then applyUpdates us q.name q.value
                 else q.value,
        requires_grad := q.requires_grad } := by
  induction us generalizing q with
  | nil =>
      rcases q with ⟨nm, v, rg⟩
      cases rg <;> simp [applyUpdates]
  | cons u us ih =>
      rcases q with ⟨nm, v, rg⟩
      cases rg
      · simpa [paramStep, applyUpdates] using ih ⟨nm, v, false⟩
      · simpa [paramStep, applyUpdates] using ih ⟨nm, u nm v, true⟩

/-- C3 (confirmed): after `main`'s fine-tuning freeze, any sequence of
optimizer steps leaves the value of every parameter whose name does not
start with the target keyword unchanged, while each parameter whose name
starts with the keyword (all of which still have `requires_grad=True`)
receives exactly the composed optimizer updates. -/
theorem finetune_freeze_frame {V : Type} (keyword : String)
    (ps : List (Param V)) (us : List (String → V → V))
    (h : ∀ p ∈ ps, p.requires_grad = true) :
    us.foldl (fun a u => sgd_step u a) (freezeExcept keyword ps) =
      ps.map (fun p =>
        { name := p.name,
          value := if p.name.startsWith keyword then
                     applyUpdates us p.name p.value
                   else p.value,
          requires_grad := p.name.startsWith keyword }) := by
  rw [freezeExcept, foldl_sgd_step_map]
  apply List.map_congr_left
  intro p hp
  rw [foldl_paramStep]
  have hrg := h p hp
  by_cases hs : p.name.startsWith keyword
  · simp [hs, hrg]
  · simp [hs, hrg]

/-- Two concrete parameters of a model about to be fine-tuned on the `fc`
layers. -/
def psFT : List (Param ℚ) :=
  [⟨"fc.weight", 1, true⟩, ⟨"backbone.stem.conv", 2, true⟩]

/-- Two concrete optimizer-step value updates. -/
def usFT : List (String → ℚ → ℚ) := [fun _ v => v + 1, fun _ v => v * 2]

theorem finetune_freeze_frame_witness :
    (∀ p ∈ psFT, p.requires_grad = true) ∧
    usFT.foldl (fun a u => sgd_step u a) (freezeExcept "fc" psFT) =
      psFT.map (fun p =>
        { name := p.name,
          value := if p.name.startsWith "fc" then
                     applyUpdates usFT p.name p.value
                   else p.value,
          requires_grad := p.name.startsWith "fc" }) :=
  ⟨by decide, finetune_freeze_frame "fc" psFT usFT (by decide)⟩

/-- Configuration of `optim.SGD(model.parameters(), lr, momentum,
weight_decay)` as constructed on source lines 151-154. -/
structure SGDConfig where
  lr : ℚ
  momentum : ℚ
  weight_decay : ℚ
deriving DecidableEq

/-- Configuration of `torch.optim.lr_scheduler.MultiStepLR` as constructed on
source lines 156-159. -/
structure MultiStepLRConfig where
  milestones : List ℕ
  gamma : ℚ
  last_epoch : ℤ
deriving DecidableEq

/-- Learning rate `MultiStepLR` serves while its internal epoch counter is
`e` (the counter is 0 during the first epoch and `scheduler.step()`
increments it): the initial rate times `gamma` raised to the number of
milestones already reached. -/
def multiStepLRAt (cfg : MultiStepLRConfig) (lr0 : ℚ) (e : ℕ) : ℚ :=
  lr0 * cfg.gamma ^ (cfg.milestones.countP (fun m => decide (m ≤ e)))

/-- The framework operations `train_model` delegates to, abstracted as pure
state transformers over an opaque parameter state `P` and optimizer state
`S` (momentum buffers): the eval-mode forward (per-sample, running
statistics frozen), the train-mode forward on a whole batch (it returns the
batch of output rows and the parameter state after the forward, since
train-mode batch-norm layers update their running statistics), the
per-sample cross-entropy whose batch mean is `nn.CrossEntropyLoss()`, and
the `zero_grad → backward → optimizer.step` cycle for one batch. -/
structure TorchEnv (P S I : Type) where
  evalForward : P → I → List ℚ
  trainForward : P → Batch I → List (List ℚ) × P
  ce : List ℚ → ℕ → ℚ
  backward_sgd_step : SGDConfig → S → P → Batch I → S × P
  init_opt_state : S

/-- The training loader: its dataset (`len(train_loader.dataset)`) and the
batches it yields on its `epoch`-th traversal (`RandomSampler` reshuffles
every epoch). -/
structure TrainLoader (I : Type) where
  dataset : List (I × ℕ)
  batchesAt : ℕ → List (Batch I)

/-- The body of the inner batch loop of `train_model` (source lines
179-200), threading (optimizer state, parameters, running loss, running
corrects): forward in train mode, arg-max predictions, mean cross-entropy
loss, backward and optimizer step, then accumulate `loss.item() *
inputs.size(0)` and the count of correct predictions. -/
def trainBatchStep {P S I : Type} (env : TorchEnv P S I) (opt : SGDConfig)
    (st : S × P × ℚ × ℤ) (batch : Batch I) : S × P × ℚ × ℤ :=
  let fwd := env.trainForward st.2.1 batch
  let labels := batch.map (fun s => s.2)
  let preds := fwd.1.map argmaxIdx
  let loss := meanCriterion env.ce fwd.1 labels
  let stepped := env.backward_sgd_step opt st.1 fwd.2 batch
  (stepped.1, stepped.2,
   st.2.2.1 + loss * (batch.length : ℚ),
   st.2.2.2 + (((preds.zip labels).filter (fun q => q.1 = q.2)).length : ℤ))

/-- One epoch of `train_model` (source lines 171-218): run the batch loop
from zeroed accumulators, normalize both running sums by
`len(train_loader.dataset)`, run one evaluation pass on the updated model,
advance the scheduler counter `le`, and produce the log entry
`(epoch + 1, [train loss, train accuracy, eval loss, eval accuracy])`. -/
def trainEpochRun {P S I : Type} (env : TorchEnv P S I) (opt0 : SGDConfig)
    (sched : MultiStepLRConfig) (lr0 : ℚ) (train_loader : TrainLoader I)
    (test_loader : Loader I) (device : Device) (epoch le : ℕ) (s : S) (p : P) :
    ℕ × S × P × (ℕ × List ℚ) :=
  let opt := { opt0 with lr := multiStepLRAt sched lr0 le }
  let r := (train_loader.batchesAt epoch).foldl (trainBatchStep env opt)
             (s, p, 0, 0)
  let n : ℚ := (train_loader.dataset.length : ℚ)
  let ev := evaluate_model (env.evalForward r.2.1) test_loader device
              (some (meanCriterion env.ce))
  (le + 1, r.1, r.2.1,
   (epoch + 1, [r.2.2.1 / n, (r.2.2.2 : ℚ) / n, ev.1, ev.2]))

/-- The `for epoch in range(num_epochs)` loop of `train_model`, with `e` the
next epoch index, `k` the number of epochs remaining, and `le` the
scheduler's internal counter; returns the final counter, optimizer state,
parameters, and the emitted log entries in order. -/
def trainEpochsFrom {P S I : Type} (env : TorchEnv P S I) (opt0 : SGDConfig)
    (sched : MultiStepLRConfig) (lr0 : ℚ) (train_loader : TrainLoader I)
    (test_loader : Loader I) (device : Device) :
    ℕ → ℕ → ℕ → S → P → ℕ × S × P × List (ℕ × List ℚ)
  | _, 0, le, s, p => (le, s, p, [])
  | e, k + 1, le, s, p =>
    let r := trainEpochRun env opt0 sched lr0 train_loader test_loader device
               e le s p
    let rest := trainEpochsFrom env opt0 sched lr0 train_loader test_loader
                  device (e + 1) k r.1 r.2.1 r.2.2.1
    (rest.1, rest.2.1, rest.2.2.1, r.2.2.2 :: rest.2.2.2)

/-- Everything `train_model` produces: the returned (in-place trained)
parameter state, the log lines it emitted, and the loss/optimizer/scheduler
policy objects it constructed, with the scheduler's final epoch counter. -/
structure TrainResult (P : Type) where
  model : P
  logs : List (ℕ × List ℚ)
  criterion : Criterion
  optimizer : SGDConfig
  scheduler : MultiStepLRConfig
  sched_epochs : ℕ

/-- Embedding of `train_model` (source lines 137-220): build the
cross-entropy criterion, the SGD optimizer (momentum 0.9, weight decay
1e-4), and the MultiStepLR schedule (milestones [100, 150], gamma 0.1,
last_epoch -1, hence counter 0 during the first epoch); log one evaluation
pass of the untouched model as epoch 0; then run the epoch loop and return
the threaded model state. -/
def train_model {P S I : Type} (env : TorchEnv P S I) (model : P)
    (train_loader : TrainLoader I) (test_loader : Loader I) (device : Device)
    (learning_rate : ℚ) (num_epochs : ℕ) : TrainResult P :=
  let criterion := meanCriterion env.ce
  let optimizer : SGDConfig :=
    { lr := learning_rate, momentum := 9/10, weight_decay := 1/10000 }
  let scheduler : MultiStepLRConfig :=
    { milestones := [100, 150], gamma := 1/10, last_epoch := -1 }
  let ev0 := evaluate_model (env.evalForward model) test_loader device
               (some criterion)
  let r := trainEpochsFrom env optimizer scheduler learning_rate train_loader
             test_loader device 0 num_epochs 0 env.init_opt_state model
  { model := r.2.2.1,
    logs := (0, [ev0.1, ev0.2]) :: r.2.2.2,
    criterion := criterion,
    optimizer := optimizer,
    scheduler := scheduler,
    sched_epochs := r.1 }

/-- Specification-side view of one batch: parameters and optimizer state
after the backward/step cycle for that batch. -/
def specBatchStep {P S I : Type} (env : TorchEnv P S I) (opt : SGDConfig)
    (sp : S × P) (b : Batch I) : S × P :=
  env.backward_sgd_step opt sp.1 (env.trainForward sp.2 b).2 b

/-- The optimizer configuration in force during epoch `e`: the fixed momentum
and weight decay with the scheduled learning rate. -/
def specOptAt (opt0 : SGDConfig) (sched : MultiStepLRConfig) (lr0 : ℚ)
    (e : ℕ) : SGDConfig :=
  { opt0 with lr := multiStepLRAt sched lr0 e }

/-- Specification-side view of the (optimizer state, parameters) pair after
`e` full training epochs. -/
def specEpochParams {P S I : Type} (env : TorchEnv P S I) (opt0 : SGDConfig)
    (sched : MultiStepLRConfig) (lr0 : ℚ) (tl : TrainLoader I)
    (sp0 : S × P) : ℕ → S × P
  | 0 => sp0
  | e + 1 =>
      (tl.batchesAt e).foldl (specBatchStep env (specOptAt opt0 sched lr0 e))
        (specEpochParams env opt0 sched lr0 tl sp0 e)

/-- Mean cross-entropy loss of one batch in train mode at parameters `p`. -/
def trainBatchLoss {P S I : Type} (env : TorchEnv P S I) (p : P)
    (b : Batch I) : ℚ :=
  meanCriterion env.ce (env.trainForward p b).1 (b.map (fun s => s.2))

/-- Number of correct arg-max predictions of one batch in train mode at
parameters `p`. -/
def trainBatchCorrect {P S I : Type} (env : TorchEnv P S I) (p : P)
    (b : Batch I) : ℕ :=
  ((((env.trainForward p b).1.map argmaxIdx).zip (b.map (fun s => s.2))).filter
      (fun q => q.1 = q.2)).length

/-- Specification-side running-loss total of one epoch: each batch
contributes its mean loss (at the parameters in force when it is processed)
times its actual size. -/
def epochLossSum {P S I : Type} (env : TorchEnv P S I) (opt : SGDConfig) :
    List (Batch I) → S × P → ℚ
  | [], _ => 0
  | b :: bs, sp =>
      trainBatchLoss env sp.2 b * (b.length : ℚ) +
        epochLossSum env opt bs (specBatchStep env opt sp b)

/-- Specification-side correct-prediction total of one epoch. -/
def epochCorrectSum {P S I : Type} (env : TorchEnv P S I) (opt : SGDConfig) :
    List (Batch I) → S × P → ℤ
  | [], _ => 0
  | b :: bs, sp =>
      (trainBatchCorrect env sp.2 b : ℤ) +
        epochCorrectSum env opt bs (specBatchStep env opt sp b)

/-- Specification-side log entry of epoch `e` (0-indexed): index `e + 1` and
the four metrics — training loss and accuracy normalized by the training
dataset size exactly as the evaluator normalizes (sum over batches of
per-batch contribution, divided by dataset length), followed by the
evaluation pass on the parameters produced by the epoch. -/
def specLogEntry {P S I : Type} (env : TorchEnv P S I) (opt0 : SGDConfig)
    (sched : MultiStepLRConfig) (lr0 : ℚ) (tl : TrainLoader I)
    (testl : Loader I) (device : Device) (sp0 : S × P) (e : ℕ) :
    ℕ × List ℚ :=
  let sp := specEpochParams env opt0 sched lr0 tl sp0 e
  let opt := specOptAt opt0 sched lr0 e
  let n : ℚ := (tl.dataset.length : ℚ)
  let after := specEpochParams env opt0 sched lr0 tl sp0 (e + 1)
  let ev := evaluate_model (env.evalForward after.2) testl device
              (some (meanCriterion env.ce))
  (e + 1,
   [epochLossSum env opt (tl.batchesAt e) sp / n,
    (epochCorrectSum env opt (tl.batchesAt e) sp : ℚ) / n,
    ev.1, ev.2])

theorem trainBatchStep_eq {P S I : Type} (env : TorchEnv P S I)
    (opt : SGDConfig) (s : S) (p : P) (a : ℚ) (c : ℤ) (b : Batch I) :
    trainBatchStep env opt (s, p, a, c) b =
      ((specBatchStep env opt (s, p) b).1, (specBatchStep env opt (s, p) b).2,
       a + trainBatchLoss env p b * (b.length : ℚ),
       c + (trainBatchCorrect env p b : ℤ)) := rfl

theorem trainFold_split {P S I : Type} (env : TorchEnv P S I)
    (opt : SGDConfig) (bs : List (Batch I)) (s : S) (p : P) (a : ℚ) (c : ℤ) :
    bs.foldl (trainBatchStep env opt) (s, p, a, c) =
      ((bs.foldl (specBatchStep env opt) (s, p)).1,
       (bs.foldl (specBatchStep env opt) (s, p)).2,
       a + epochLossSum env opt bs (s, p),
       c + epochCorrectSum env opt bs (s, p)) := by
  induction bs generalizing s p a c with
  | nil => simp [epochLossSum, epochCorrectSum]
  | cons b bs ih =>
      simp only [List.foldl_cons, trainBatchStep_eq, epochLossSum,
        epochCorrectSum]
      rcases hsb : specBatchStep env opt (s, p) b with ⟨s1, p1⟩
      rw [ih]
      simp [add_assoc]

theorem trainEpochRun_spec {P S I : Type} (env : TorchEnv P S I)
    (opt0 : SGDConfig) (sched : MultiStepLRConfig) (lr0 : ℚ)
    (tl : TrainLoader I) (testl : Loader I) (device : Device)
    (sp0 : S × P) (e : ℕ) :
    trainEpochRun env opt0 sched lr0 tl testl device e e
        (specEpochParams env opt0 sched lr0 tl sp0 e).1
        (specEpochParams env opt0 sched lr0 tl sp0 e).2 =
      (e + 1,
       (specEpochParams env opt0 sched lr0 tl sp0 (e + 1)).1,
       (specEpochParams env opt0 sched lr0 tl sp0 (e + 1)).2,
       specLogEntry env opt0 sched lr0 tl testl device sp0 e) := by
  simp only [trainEpochRun, specLogEntry]
  rw [trainFold_split]
  simp only [Prod.mk.eta, specEpochParams, specOptAt, zero_add]

theorem trainEpochsFrom_spec {P S I : Type} (env : TorchEnv P S I)
    (opt0 : SGDConfig) (sched : MultiStepLRConfig) (lr0 : ℚ)
    (tl : TrainLoader I) (testl : Loader I) (device : Device)
    (sp0 : S × P) :
    ∀ (k e : ℕ),
    trainEpochsFrom env opt0 sched lr0 tl testl device e k e
        (specEpochParams env opt0 sched lr0 tl sp0 e).1
        (specEpochParams env opt0 sched lr0 tl sp0 e).2 =
      (e + k,
       (specEpochParams env opt0 sched lr0 tl sp0 (e + k)).1,
       (specEpochParams env opt0 sched lr0 tl sp0 (e + k)).2,
       (List.range' e k).map
         (specLogEntry env opt0 sched lr0 tl testl device sp0)) := by
  intro k
  induction k with
  | zero => intro e; simp [trainEpochsFrom]
  | succ k ih =>
      intro e
      rw [trainEpochsFrom]
      rw [trainEpochRun_spec env opt0 sched lr0 tl testl device sp0 e]
      rw [ih (e + 1)]
      have h1 : e + 1 + k = e + (k + 1) := by omega
      rw [h1, List.range'_succ]
      simp

/-- C2 (confirmed): `train_model` performs exactly the claimed procedure —
an evaluation pass of the untouched model logged as epoch 0; then per epoch
the fold of per-batch forward/backward/optimizer steps over all training
batches, running loss and corrects normalized by the training dataset
length exactly as the evaluator normalizes, an evaluation pass on the
updated parameters, one scheduler advance (the final scheduler counter is
`num_epochs`), and one log entry `(epoch index, four metrics)`; and it
returns the threaded (in-place mutated) parameter state after all epochs.
The log list has `num_epochs + 1` entries. -/
theorem train_model_procedure {P S I : Type} (env : TorchEnv P S I)
    (model : P) (tl : TrainLoader I) (testl : Loader I) (device : Device)
    (learning_rate : ℚ) (num_epochs : ℕ) :
    train_model env model tl testl device learning_rate num_epochs =
      { model :=
          (specEpochParams env
            { lr := learning_rate, momentum := 9/10, weight_decay := 1/10000 }
            { milestones := [100, 150], gamma := 1/10, last_epoch := -1 }
            learning_rate tl (env.init_opt_state, model) num_epochs).2,
        logs :=
          (0, [(evaluate_model (env.evalForward model) testl device
                  (some (meanCriterion env.ce))).1,
               (evaluate_model (env.evalForward model) testl device
                  (some (meanCriterion env.ce))).2]) ::
            (List.range num_epochs).map
              (specLogEntry env
                { lr := learning_rate, momentum := 9/10, weight_decay := 1/10000 }
                { milestones := [100, 150], gamma := 1/10, last_epoch := -1 }
                learning_rate tl testl device (env.init_opt_state, model)),
        criterion := meanCriterion env.ce,
        optimizer :=
          { lr := learning_rate, momentum := 9/10, weight_decay := 1/10000 },
        scheduler :=
          { milestones := [100, 150], gamma := 1/10, last_epoch := -1 },
        sched_epochs := num_epochs } ∧
    (train_model env model tl testl device learning_rate num_epochs).logs.length =
      num_epochs + 1 := by
  have h := trainEpochsFrom_spec env
    { lr := learning_rate, momentum := 9/10, weight_decay := 1/10000 }
    { milestones := [100, 150], gamma := 1/10, last_epoch := -1 }
    learning_rate tl testl device (env.init_opt_state, model) num_epochs 0
  rw [← List.range_eq_range'] at h
  simp only [specEpochParams, Nat.zero_add] at h
  have heq : train_model env model tl testl device learning_rate num_epochs =
      { model :=
          (specEpochParams env
            { lr := learning_rate, momentum := 9/10, weight_decay := 1/10000 }
            { milestones := [100, 150], gamma := 1/10, last_epoch := -1 }
            learning_rate tl (env.init_opt_state, model) num_epochs).2,
        logs :=
          (0, [(evaluate_model (env.evalForward model) testl device
                  (some (meanCriterion env.ce))).1,
               (evaluate_model (env.evalForward model) testl device
                  (some (meanCriterion env.ce))).2]) ::
            (List.range num_epochs).map
              (specLogEntry env
                { lr := learning_rate, momentum := 9/10, weight_decay := 1/10000 }
                { milestones := [100, 150], gamma := 1/10, last_epoch := -1 }
                learning_rate tl testl device (env.init_opt_state, model)),
        criterion := meanCriterion env.ce,
        optimizer :=
          { lr := learning_rate, momentum := 9/10, weight_decay := 1/10000 },
        scheduler :=
          { milestones := [100, 150], gamma := 1/10, last_epoch := -1 },
        sched_epochs := num_epochs } := by
    simp only [train_model]
    rw [h]
  refine ⟨heq, ?_⟩
  rw [heq]
  simp

/-- C7 (confirmed): `train_model` fixes its optimization policy regardless of
all its arguments (in particular regardless of `num_epochs`): the criterion
is the batch-mean cross-entropy, the optimizer is SGD with momentum 0.9 and
weight decay 1e-4 at the given learning rate, and the `MultiStepLR`
schedule with fixed milestones [100, 150] and gamma 0.1 serves the base
rate before epoch 100, one tenth of it from epoch 100 up to 150, and one
hundredth of it from epoch 150 on. -/
theorem train_model_fixed_policy {P S I : Type} (env : TorchEnv P S I)
    (model : P) (tl : TrainLoader I) (testl : Loader I) (device : Device)
    (lr : ℚ) (num_epochs : ℕ) :
    (train_model env model tl testl device lr num_epochs).criterion =
      meanCriterion env.ce ∧
    (train_model env model tl testl device lr num_epochs).optimizer =
      { lr := lr, momentum := 9/10, weight_decay := 1/10000 } ∧
    (train_model env model tl testl device lr num_epochs).scheduler =
      { milestones := [100, 150], gamma := 1/10, last_epoch := -1 } ∧
    (∀ e, e < 100 →
      multiStepLRAt (train_model env model tl testl device lr num_epochs).scheduler
        lr e = lr) ∧
    (∀ e, 100 ≤ e → e < 150 →
      multiStepLRAt (train_model env model tl testl device lr num_epochs).scheduler
        lr e = lr * (1/10)) ∧
    (∀ e, 150 ≤ e →
      multiStepLRAt (train_model env model tl testl device lr num_epochs).scheduler
        lr e = lr * (1/100)) := by
  have hs : (train_model env model tl testl device lr num_epochs).scheduler =
      { milestones := [100, 150], gamma := 1/10, last_epoch := -1 } := rfl
  refine ⟨rfl, rfl, rfl, ?_, ?_, ?_⟩
  · intro e he
    have h1 : ¬ (100 ≤ e) := by omega
    have h2 : ¬ (150 ≤ e) := by omega
    have hc : List.countP (fun m => decide (m ≤ e)) [100, 150] = 0 := by
      simp [List.countP_cons, h1, h2]
    rw [hs]
    simp only [multiStepLRAt, hc]
    norm_num
  · intro e he1 he2
    have h2 : ¬ (150 ≤ e) := by omega
    have hc : List.countP (fun m => decide (m ≤ e)) [100, 150] = 1 := by
      simp [List.countP_cons, he1, h2]
    rw [hs]
    simp only [multiStepLRAt, hc]
    norm_num
  · intro e he
    have h1 : 100 ≤ e := by omega
    have hc : List.countP (fun m => decide (m ≤ e)) [100, 150] = 2 := by
      simp [List.countP_cons, he, h1]
    rw [hs]
    simp only [multiStepLRAt, hc]
    norm_num

/-- A trivial instantiation of the framework operations, used to exercise the
training-policy theorem at concrete arguments. -/
def envU : TorchEnv Unit Unit Unit :=
  { evalForward := fun _ _ => [],
    trainForward := fun p _ => ([], p),
    ce := fun _ _ => 0,
    backward_sgd_step := fun _ s p _ => (s, p),
    init_opt_state := () }

/-- An empty training loader for the trivial instantiation. -/
def tlU : TrainLoader Unit := ⟨[], fun _ => []⟩

/-- An empty evaluation loader for the trivial instantiation. -/
def testlU : Loader Unit := ⟨[], []⟩

theorem train_model_fixed_policy_witness :
    ((7 : ℕ) < 100 ∧
      multiStepLRAt (train_model envU () tlU testlU "cpu:0" (1/2) 3).scheduler
        (1/2) 7 = 1/2) ∧
    ((100 : ℕ) ≤ 120 ∧ (120 : ℕ) < 150 ∧
      multiStepLRAt (train_model envU () tlU testlU "cpu:0" (1/2) 3).scheduler
        (1/2) 120 = (1/2) * (1/10)) ∧
    ((150 : ℕ) ≤ 200 ∧
      multiStepLRAt (train_model envU () tlU testlU "cpu:0" (1/2) 3).scheduler
        (1/2) 200 = (1/2) * (1/100)) :=
  ⟨⟨by decide,
    (train_model_fixed_policy envU () tlU testlU "cpu:0" (1/2) 3).2.2.2.1
      7 (by decide)⟩,
   ⟨by decide, by decide,
    (train_model_fixed_policy envU () tlU testlU "cpu:0" (1/2) 3).2.2.2.2.1
      120 (by decide) (by decide)⟩,
   ⟨by decide,
    (train_model_fixed_policy envU () tlU testlU "cpu:0" (1/2) 3).2.2.2.2.2
      200 (by decide)⟩⟩

end CifarBaseline
